import Mathlib

set_option autoImplicit false

namespace EncryptedDB

/-- A serializable value, as stored in the JSON database: the closed sum of
null, booleans, integers, strings, lists and string-keyed objects. -/
inductive Value where
  | null : Value
  | bool : Bool → Value
  | int : Int → Value
  | str : String → Value
  | list : List Value → Value
  | dict : List (String × Value) → Value

mutual

/-- Structural (Python `==`) equality on values. -/
def Value.beq : Value → Value → Bool
  | .null, .null => true
  | .bool a, .bool b => a == b
  | .int a, .int b => a == b
  | .str a, .str b => a == b
  | .list xs, .list ys => beqL xs ys
  | .dict xs, .dict ys => beqO xs ys
  | _, _ => false

/-- Elementwise `Value.beq` on lists of values. -/
def beqL : List Value → List Value → Bool
  | [], [] => true
  | x :: xs, y :: ys => Value.beq x y && beqL xs ys
  | _, _ => false

/-- Elementwise equality on string-keyed association lists of values. -/
def beqO : List (String × Value) → List (String × Value) → Bool
  | [], [] => true
  | (k1, v1) :: xs, (k2, v2) :: ys => k1 == k2 && Value.beq v1 v2 && beqO xs ys
  | _, _ => false

end

instance : BEq Value := ⟨Value.beq⟩

mutual

theorem Value.beq_iff : ∀ (a b : Value), Value.beq a b = true ↔ a = b
  | .null, b => by cases b <;> simp [Value.beq]
  | .bool x, b => by cases b <;> simp [Value.beq]
  | .int x, b => by cases b <;> simp [Value.beq]
  | .str x, b => by cases b <;> simp [Value.beq]
  | .list xs, b => by
      cases b <;> simp [Value.beq]
      exact beqL_iff xs _
  | .dict xs, b => by
      cases b <;> simp [Value.beq]
      exact beqO_iff xs _

theorem beqL_iff : ∀ (xs ys : List Value), beqL xs ys = true ↔ xs = ys
  | [], [] => by simp [beqL]
  | [], _ :: _ => by simp [beqL]
  | _ :: _, [] => by simp [beqL]
  | x :: xs, y :: ys => by
      simp [beqL, Value.beq_iff x y, beqL_iff xs ys]

theorem beqO_iff : ∀ (xs ys : List (String × Value)), beqO xs ys = true ↔ xs = ys
  | [], [] => by simp [beqO]
  | [], _ :: _ => by simp [beqO]
  | _ :: _, [] => by simp [beqO]
  | (k1, v1) :: xs, (k2, v2) :: ys => by
      simp [beqO, Value.beq_iff v1 v2, beqO_iff xs ys, and_assoc]

end

instance : LawfulBEq Value where
  eq_of_beq h := (Value.beq_iff _ _).1 h
  rfl := (Value.beq_iff _ _).2 rfl

instance : DecidableEq Value := fun a b => decidable_of_iff _ (Value.beq_iff a b)

/-- A Python dict with string keys, in insertion order (keys unique by
construction of every dict the program builds). -/
abbrev Obj := List (String × Value)

/-- Python exceptions that the embedded operations can raise. -/
inductive PyErr where
  | valueError : String → PyErr
  | keyError : String → PyErr
  | typeError : PyErr
  | attributeError : PyErr
  deriving DecidableEq

/-- Python `d[k]` / `d.get(k)` lookup on a dict: first (unique) binding of `k`. -/
def pyGet (d : Obj) (k : String) : Option Value :=
  match d with
  | [] => none
  | (k2, v) :: rest => if k2 = k then some v else pyGet rest k

/-- Python `d[k] = v` on a dict: an existing key keeps its position, a new
key is appended at the end. -/
def pySet (d : Obj) (k : String) (v : Value) : Obj :=
  match d with
  | [] => [(k, v)]
  | (k2, w) :: rest => if k2 = k then (k2, v) :: rest else (k2, w) :: pySet rest k v

/-- The store state: the in-memory `self.database` dict, and the decrypted
content of the backing file (`none` when the file does not exist). -/
structure DBState where
  database : Obj
  file : Option Obj
  deriving DecidableEq

/-- `{"_meta": {"tables": {}}}` — the fresh database made when no file exists. -/
def freshDatabase : Obj := [("_meta", Value.dict [("tables", Value.dict [])])]

/-- `_save_db`: serialize, encrypt and write the whole in-memory database
as the new file content. -/
def save_db (st : DBState) : DBState := { st with file := some st.database }

/-- The evaluation of `self.database["_meta"]["tables"]`: a missing key
raises `KeyError`, subscripting a non-dict raises `TypeError`. -/
def metaTables (db : Obj) : Except PyErr Obj :=
  match pyGet db "_meta" with
  | none => .error (.keyError "_meta")
  | some (.dict m) =>
      match pyGet m "tables" with
      | none => .error (.keyError "tables")
      | some (.dict t) => .ok t
      | some _ => .error .typeError
  | some _ => .error .typeError

/-- Write an updated tables dict back through `self.database["_meta"]["tables"]`
(only used after `metaTables` succeeded, so the partial match is total there). -/
def writeMetaTables (db : Obj) (t2 : Obj) : Obj :=
  match pyGet db "_meta" with
  | some (.dict m) => pySet db "_meta" (Value.dict (pySet m "tables" (Value.dict t2)))
  | _ => db

/-- `isinstance(columns, list) and all(isinstance(col, str) for col in columns)`. -/
def isStrColumnList (columns : Value) : Bool :=
  match columns with
  | .list cs => cs.all fun c => match c with | .str _ => true | _ => false
  | _ => false

/-- `define_table(self, table_name, columns)` of `EncryptedDatabase`. -/
def define_table (st : DBState) (table_name : String) (columns : Value) :
    DBState × Except PyErr Unit :=
  match metaTables st.database with
  | .error e => (st, .error e)
  | .ok tables =>
    if (pyGet tables table_name).isSome then
      (st, .error (.valueError ("Table '" ++ table_name ++ "' already exists.")))
    else if isStrColumnList columns then
      match columns with
      | .list cs =>
        let tables2 := pySet tables table_name (Value.dict [("columns", Value.list cs)])
        let db2 := writeMetaTables st.database tables2
        let db3 := pySet db2 table_name (Value.list [])
        (save_db { st with database := db3 }, .ok ())
      | _ => (st, .error (.valueError "Columns must be a list of strings."))
    else
      (st, .error (.valueError "Columns must be a list of strings."))

/-- The evaluation of `tables[table_name]["columns"]` on the metadata entry
of one table. -/
def getColumns (tmeta : Value) : Except PyErr (List Value) :=
  match tmeta with
  | .dict m =>
      match pyGet m "columns" with
      | none => .error (.keyError "columns")
      | some (.list cs) => .ok cs
      | some _ => .error .typeError
  | _ => .error .typeError

/-- `set(row.keys()) == set(columns)`: every key occurs among the column
values and every column value equals some key (Python `==` between a string
and a non-string is `False`). -/
def keySetEq (keys : List String) (cols : List Value) : Bool :=
  (keys.all fun k => cols.contains (Value.str k)) &&
    (cols.all fun c => keys.any fun k => Value.str k == c)

/-- `insert(self, table_name, row)` of `EncryptedDatabase`. -/
def insert (st : DBState) (table_name : String) (row : Obj) :
    DBState × Except PyErr Unit :=
  match metaTables st.database with
  | .error e => (st, .error e)
  | .ok tables =>
    match pyGet tables table_name with
    | none => (st, .error (.valueError ("Table '" ++ table_name ++ "' does not exist.")))
    | some tmeta =>
      match getColumns tmeta with
      | .error e => (st, .error e)
      | .ok cols =>
        if keySetEq (row.map Prod.fst) cols then
          match pyGet st.database table_name with
          | none => (st, .error (.keyError table_name))
          | some (.list rows) =>
            let db2 := pySet st.database table_name (Value.list (rows ++ [Value.dict row]))
            (save_db { st with database := db2 }, .ok ())
          | some _ => (st, .error .attributeError)
        else
          (st, .error (.valueError "Row does not match table columns."))

/-- `all(row[k] == v for k, v in filters.items())`: subscript lookup, so a
missing key raises `KeyError`; the generator stops at the first `False`. -/
def rowMatchesStrict (row : Obj) (filters : Obj) : Except PyErr Bool :=
  match filters with
  | [] => .ok true
  | (k, v) :: fs =>
    match pyGet row k with
    | none => .error (.keyError k)
    | some w => if w == v then rowMatchesStrict row fs else .ok false

/-- The list comprehension of `read`: keep the rows whose strict match
succeeds, propagating the first raised error. -/
def filterStrict (rows : List Value) (filters : Obj) : Except PyErr (List Value) :=
  match rows with
  | [] => .ok []
  | r :: rs =>
    match r with
    | .dict ro =>
      match rowMatchesStrict ro filters with
      | .error e => .error e
      | .ok b =>
        match filterStrict rs filters with
        | .error e => .error e
        | .ok rest => .ok (if b then r :: rest else rest)
    | _ => .error .typeError

/-- `read(self, table_name, filters=None)` of `EncryptedDatabase`; a `none`
or empty filters dict is falsy, so the rows are returned unfiltered. -/
def read (st : DBState) (table_name : String) (filters : Option Obj) :
    Except PyErr Value :=
  match metaTables st.database with
  | .error e => .error e
  | .ok tables =>
    if (pyGet tables table_name).isSome then
      match pyGet st.database table_name with
      | none => .error (.keyError table_name)
      | some rowsV =>
        match filters with
        | some (f@(_ :: _)) =>
          match rowsV with
          | .list rows =>
            match filterStrict rows f with
            | .error e => .error e
            | .ok kept => .ok (Value.list kept)
          | _ => .error .typeError
        | _ => .ok rowsV
    else
      .error (.valueError ("Table '" ++ table_name ++ "' does not exist."))

/-- `all(row.get(k) == v for k, v in filters.items())`: `.get` lookup, so a
missing key yields `None`, which is then compared against the filter value. -/
def rowMatchesGet (row : Obj) (filters : Obj) : Bool :=
  filters.all fun kv => ((pyGet row kv.1).getD Value.null) == kv.2

/-- The update loop body `for k, v in updates.items(): row[k] = v`. -/
def applyUpdates (row : Obj) (updates : Obj) : Obj :=
  updates.foldl (fun r kv => pySet r kv.1 kv.2) row

/-- The validation loop of `update`: the first key of `updates` that is not
in the `columns` list (Python `in` on a list, elementwise `==`). -/
def firstInvalidKey (updates : Obj) (cols : List Value) : Option String :=
  match updates with
  | [] => none
  | (k, _) :: rest =>
      if cols.contains (Value.str k) then firstInvalidKey rest cols else some k

/-- The row loop of `update`: each matching row is mutated in place and
counted; a non-dict row raises `AttributeError` at `row.get`, leaving the
rows already visited mutated. -/
def updateRows (rows : List Value) (filters updates : Obj) :
    List Value × Nat × Option PyErr :=
  match rows with
  | [] => ([], 0, none)
  | r :: rs =>
    match r with
    | .dict ro =>
      let res := updateRows rs filters updates
      if rowMatchesGet ro filters then
        (Value.dict (applyUpdates ro updates) :: res.1, res.2.1 + 1, res.2.2)
      else
        (r :: res.1, res.2.1, res.2.2)
    | _ => (r :: rs, 0, some .attributeError)

/-- `update(self, table_name, filters, updates)` of `EncryptedDatabase`. -/
def update (st : DBState) (table_name : String) (filters updates : Obj) :
    DBState × Except PyErr Nat :=
  match metaTables st.database with
  | .error e => (st, .error e)
  | .ok tables =>
    match pyGet tables table_name with
    | none => (st, .error (.valueError ("Table '" ++ table_name ++ "' does not exist.")))
    | some tmeta =>
      match getColumns tmeta with
      | .error e => (st, .error e)
      | .ok cols =>
        match firstInvalidKey updates cols with
        | some k =>
            (st, .error (.valueError
              ("Column '" ++ k ++ "' does not exist in table '" ++ table_name ++ "'.")))
        | none =>
          match pyGet st.database table_name with
          | none => (st, .error (.keyError table_name))
          | some (.list rows) =>
            let res := updateRows rows filters updates
            let db2 := pySet st.database table_name (Value.list res.1)
            match res.2.2 with
            | some e => ({ st with database := db2 }, .error e)
            | none => (save_db { st with database := db2 }, .ok res.2.1)
          | some _ => (st, .error .typeError)

/-- The list comprehension of `delete`: keep the rows that do not match,
propagating the first raised error (in which case the assignment to
`self.database[table_name]` never happens). -/
def deleteRows (rows : List Value) (filters : Obj) : Except PyErr (List Value) :=
  match rows with
  | [] => .ok []
  | r :: rs =>
    match r with
    | .dict ro =>
      match deleteRows rs filters with
      | .error e => .error e
      | .ok rest => .ok (if rowMatchesGet ro filters then rest else r :: rest)
    | _ => .error .attributeError

/-- `delete(self, table_name, filters)` of `EncryptedDatabase`. -/
def delete (st : DBState) (table_name : String) (filters : Obj) :
    DBState × Except PyErr Nat :=
  match metaTables st.database with
  | .error e => (st, .error e)
  | .ok tables =>
    match pyGet tables table_name with
    | none => (st, .error (.valueError ("Table '" ++ table_name ++ "' does not exist.")))
    | some _ =>
      match pyGet st.database table_name with
      | none => (st, .error (.keyError table_name))
      | some (.list rows) =>
        match deleteRows rows filters with
        | .error e => (st, .error e)
        | .ok rows2 =>
          let db2 := pySet st.database table_name (Value.list rows2)
          (save_db { st with database := db2 }, .ok (rows.length - rows2.length))
      | some _ => (st, .error .typeError)

/-- `list_tables(self)` of `EncryptedDatabase`: the registry keys in
insertion order. -/
def list_tables (st : DBState) : Except PyErr (List String) :=
  match metaTables st.database with
  | .error e => .error e
  | .ok tables => .ok (tables.map Prod.fst)

/-- `_load_or_initialize_db`: `file` is the raw content of the backing file
when it exists; `decrypt` and `deserialize` are the external primitives
(`Fernet.decrypt`, `json.loads`), whose failures propagate unhandled. -/
def load_or_initialize_db (file : Option (List Nat))
    (decrypt : List Nat → Except PyErr (List Nat))
    (deserialize : List Nat → Except PyErr Obj) : Except PyErr Obj :=
  match file with
  | none => .ok freshDatabase
  | some bs =>
    match decrypt bs with
    | .error e => .error e
    | .ok ds => deserialize ds

/-- The state of a store constructed with no pre-existing backing file. -/
def st0 : DBState := { database := freshDatabase, file := none }

/-- `st0` after `define_table("t", ["a"])`. -/
def stT : DBState := (define_table st0 "t" (Value.list [Value.str "a"])).1

/-- `stT` after `insert("t", {"a": 1})`. -/
def stT1 : DBState := (insert stT "t" [("a", Value.int 1)]).1

/-- The matching predicate as claim C6 words it (spec-side definition, for
comparison with the code's `rowMatchesGet`): every filter key must be
present in the record with an equal value, so a record missing a filter key
never matches. -/
def strictAbsentNoMatch (row : Obj) (filters : Obj) : Bool :=
  filters.all fun kv =>
    match pyGet row kv.1 with
    | some w => w == kv.2
    | none => false

theorem pyGet_pySet_self (d : Obj) (k : String) (v : Value) :
    pyGet (pySet d k v) k = some v := by
  induction d with
  | nil => simp [pyGet, pySet]
  | cons kv rest ih =>
    obtain ⟨k2, w⟩ := kv
    by_cases h : k2 = k <;> simp [pyGet, pySet, h, ih]

theorem contains_iff_mem (cols : List Value) (v : Value) :
    cols.contains v = true ↔ v ∈ cols := by
  induction cols with
  | nil => simp
  | cons c rest ih => simp [List.contains_cons, Bool.or_eq_true, ih, List.mem_cons]

theorem pyGet_pySet_ne (d : Obj) (k u : String) (v : Value) (h : u ≠ k) :
    pyGet (pySet d k v) u = pyGet d u := by
  induction d with
  | nil => simp [pyGet, pySet, Ne.symm h]
  | cons kv rest ih =>
    obtain ⟨k2, w⟩ := kv
    by_cases h2 : k2 = k <;> by_cases h3 : k2 = u <;>
      simp_all [pyGet, pySet]

theorem updateRows_eq (rdicts : List Obj) (filters updates : Obj) :
    updateRows (rdicts.map Value.dict) filters updates =
      ((rdicts.map fun ro => if rowMatchesGet ro filters
          then Value.dict (applyUpdates ro updates) else Value.dict ro),
        rdicts.countP (fun ro => rowMatchesGet ro filters), none) := by
  induction rdicts with
  | nil => simp [updateRows]
  | cons ro rest ih =>
    by_cases h : rowMatchesGet ro filters <;>
      simp [updateRows, h, ih, List.countP_cons]

theorem deleteRows_eq (rdicts : List Obj) (filters : Obj) :
    deleteRows (rdicts.map Value.dict) filters =
      .ok ((rdicts.filter fun ro => !rowMatchesGet ro filters).map Value.dict) := by
  induction rdicts with
  | nil => simp [deleteRows]
  | cons ro rest ih =>
    by_cases h : rowMatchesGet ro filters <;>
      simp [deleteRows, h, ih, List.filter_cons]

theorem length_sub_length_filter_not (rdicts : List Obj) (p : Obj → Bool) :
    rdicts.length - (rdicts.filter fun ro => !p ro).length = rdicts.countP p := by
  induction rdicts with
  | nil => simp
  | cons ro rest ih =>
    have hle := List.length_filter_le (fun ro => !p ro) rest
    by_cases h : p ro <;>
      simp [List.filter_cons, List.countP_cons, h] <;>
      omega

theorem rowMatchesStrict_eq (ro : Obj) (f : Obj)
    (hp : ∀ kv ∈ f, (pyGet ro kv.1).isSome) :
    rowMatchesStrict ro f = .ok (f.all fun kv => pyGet ro kv.1 == some kv.2) := by
  induction f with
  | nil => simp [rowMatchesStrict]
  | cons kv fs ih =>
    obtain ⟨k, v⟩ := kv
    obtain ⟨w, hw⟩ := Option.isSome_iff_exists.1 (hp (k, v) (List.mem_cons_self _ _))
    by_cases h : w = v
    · subst h
      simp [rowMatchesStrict, hw, ih fun kv hkv => hp kv (List.mem_cons_of_mem _ hkv)]
    · simp [rowMatchesStrict, hw, h]

theorem filterStrict_eq (rdicts : List Obj) (f : Obj)
    (hp : ∀ ro ∈ rdicts, ∀ kv ∈ f, (pyGet ro kv.1).isSome) :
    filterStrict (rdicts.map Value.dict) f =
      .ok ((rdicts.filter fun ro =>
        f.all fun kv => pyGet ro kv.1 == some kv.2).map Value.dict) := by
  induction rdicts with
  | nil => simp [filterStrict]
  | cons ro rest ih =>
    rw [List.map_cons, filterStrict,
      rowMatchesStrict_eq ro f (hp ro (List.mem_cons_self _ _)),
      ih fun r hr => hp r (List.mem_cons_of_mem _ hr)]
    by_cases h : (f.all fun kv => pyGet ro kv.1 == some kv.2) <;>
      simp [List.filter_cons, h]

theorem pyGet_applyUpdates_not_mem (ro : Obj) (u : Obj) (k : String)
    (h : k ∉ u.map Prod.fst) :
    pyGet (applyUpdates ro u) k = pyGet ro k := by
  induction u generalizing ro with
  | nil => simp [applyUpdates]
  | cons kv rest ih =>
    obtain ⟨k1, v1⟩ := kv
    simp only [List.map_cons, List.mem_cons] at h
    push_neg at h
    show pyGet (applyUpdates (pySet ro k1 v1) rest) k = pyGet ro k
    rw [ih _ h.2, pyGet_pySet_ne _ _ _ _ h.1]

theorem pyGet_applyUpdates_mem (ro : Obj) (u : Obj) (k : String) (v : Value)
    (hnd : (u.map Prod.fst).Nodup) (h : (k, v) ∈ u) :
    pyGet (applyUpdates ro u) k = some v := by
  induction u generalizing ro with
  | nil => simp at h
  | cons kv rest ih =>
    obtain ⟨k1, v1⟩ := kv
    simp only [List.map_cons, List.nodup_cons] at hnd
    rcases List.mem_cons.1 h with h1 | h1
    · have hk : k = k1 := congrArg Prod.fst h1
      have hv : v = v1 := congrArg Prod.snd h1
      subst hk; subst hv
      show pyGet (applyUpdates (pySet ro k v) rest) k = some v
      rw [pyGet_applyUpdates_not_mem _ _ _ hnd.1, pyGet_pySet_self]
    · show pyGet (applyUpdates (pySet ro k1 v1) rest) k = some v
      exact ih _ hnd.2 h1

theorem firstInvalidKey_eq_none_iff (u : Obj) (cols : List Value) :
    firstInvalidKey u cols = none ↔ ∀ kv ∈ u, Value.str kv.1 ∈ cols := by
  induction u with
  | nil => simp [firstInvalidKey]
  | cons kv rest ih =>
    by_cases hmem : Value.str kv.1 ∈ cols
    · simp [firstInvalidKey, ih, List.forall_mem_cons, hmem]
    · simp [firstInvalidKey, List.forall_mem_cons, hmem]

theorem firstInvalidKey_some_not_mem (u : Obj) (cols : List Value) (k : String)
    (h : firstInvalidKey u cols = some k) : Value.str k ∉ cols := by
  induction u with
  | nil => simp [firstInvalidKey] at h
  | cons kv rest ih =>
    by_cases h2 : Value.str kv.1 ∈ cols
    · exact ih (by simpa [firstInvalidKey, h2] using h)
    · have : kv.1 = k := by simpa [firstInvalidKey, h2] using h
      subst this
      exact h2

theorem keySetEq_iff (keys : List String) (cols : List Value) :
    keySetEq keys cols = true ↔
      ((∀ k ∈ keys, Value.str k ∈ cols) ∧ ∀ c ∈ cols, ∃ k ∈ keys, Value.str k = c) := by
  simp [keySetEq, List.all_eq_true, List.any_eq_true, contains_iff_mem]

theorem bool_eq_of_iff {a b : Bool} (h : (a = true) ↔ (b = true)) : a = b := by
  cases a <;> cases b <;> simp_all

/-- Claim C1: a filter key absent from a stored record is supposed to make
the record fail to match without an error; instead `read` subscripts
`row[k]`, so on the reachable state whose table `"t"` holds the single
record `{"a": 1}`, filtering by `{"b": 1}` raises `KeyError("b")` rather
than returning an empty result. -/
theorem C1_read_raises_on_missing_filter_key :
    pyGet stT1.database "t" = some (Value.list [Value.dict [("a", Value.int 1)]]) ∧
    pyGet [("a", Value.int 1)] "b" = none ∧
    read stT1 "t" (some [("b", Value.int 1)]) = .error (.keyError "b") :=
  ⟨rfl, rfl, rfl⟩

/-- Claim C2, counterexample: `define_table` accepts an empty column list
and a duplicate column list, registering both tables, although the claim
demands a schema error in either case. -/
theorem C2_counterexample_lenient_schema :
    (define_table st0 "t" (Value.list [])).2 = .ok () ∧
    list_tables (define_table st0 "t" (Value.list [])).1 = .ok ["t"] ∧
    (define_table st0 "d" (Value.list [Value.str "a", Value.str "a"])).2 = .ok () ∧
    list_tables (define_table st0 "d" (Value.list [Value.str "a", Value.str "a"])).1 =
      .ok ["d"] :=
  ⟨rfl, rfl, rfl, rfl⟩

/-- Claim C2 (amended): on an unregistered name, `define_table` fails — with
the columns `ValueError` and the state unchanged, so no table is registered —
precisely when `columns` is not a list of strings; an empty column list or
one with duplicate entries passes the check and the call succeeds. -/
theorem C2_define_table_validation (st : DBState) (td : Obj) (name : String)
    (columns : Value)
    (hm : metaTables st.database = .ok td) (hn : pyGet td name = none) :
    (isStrColumnList columns = false →
      define_table st name columns =
        (st, .error (.valueError "Columns must be a list of strings."))) ∧
    (isStrColumnList columns = true → (define_table st name columns).2 = .ok ()) := by
  constructor
  · intro h
    simp [define_table, hm, hn, h]
  · intro h
    match columns, h with
    | .list cs, h => simp [define_table, hm, hn, h]

/-- Claim C2, witness for the amended theorem: on the fresh store a
non-list `columns` argument is rejected with the state unchanged, while an
empty column list is accepted. -/
theorem C2_define_table_validation_witness :
    metaTables st0.database = .ok [] ∧ pyGet ([] : Obj) "t" = none ∧
    isStrColumnList (Value.int 5) = false ∧
    define_table st0 "t" (Value.int 5) =
      (st0, .error (.valueError "Columns must be a list of strings.")) ∧
    (define_table st0 "t" (Value.list [])).2 = .ok () :=
  ⟨rfl, rfl, rfl,
    (C2_define_table_validation st0 [] "t" (Value.int 5) rfl rfl).1 rfl,
    (C2_define_table_validation st0 [] "t" (Value.list []) rfl rfl).2 rfl⟩

/-- Claim C3: the code does not reserve `"_meta"`. `define_table("_meta",
["a"])` completes without error, and the assignment of the fresh row list to
`database["_meta"]` overwrites the metadata entry, destroying the whole
table registry: afterwards the database is `{"_meta": []}` and `list_tables`
raises `TypeError`. -/
theorem C3_meta_define_corrupts_registry :
    (define_table st0 "_meta" (Value.list [Value.str "a"])).2 = .ok () ∧
    (define_table st0 "_meta" (Value.list [Value.str "a"])).1.database =
      [("_meta", Value.list [])] ∧
    list_tables (define_table st0 "_meta" (Value.list [Value.str "a"])).1 =
      .error .typeError :=
  ⟨rfl, rfl, rfl⟩

/-- Claim C9: with no backing file, construction starts from the fresh
snapshot with an empty table registry; with a file, a decryption or
deserialization failure propagates out of the load, and a successful load
only ever returns the decrypted, deserialized content — never a silent
fresh fallback. -/
theorem C9_load_spec (decrypt : List Nat → Except PyErr (List Nat))
    (deserialize : List Nat → Except PyErr Obj) :
    (load_or_initialize_db none decrypt deserialize = .ok freshDatabase ∧
      metaTables freshDatabase = .ok []) ∧
    (∀ bs e, decrypt bs = .error e →
      load_or_initialize_db (some bs) decrypt deserialize = .error e) ∧
    (∀ bs ds e, decrypt bs = .ok ds → deserialize ds = .error e →
      load_or_initialize_db (some bs) decrypt deserialize = .error e) ∧
    (∀ bs db, load_or_initialize_db (some bs) decrypt deserialize = .ok db →
      ∃ ds, decrypt bs = .ok ds ∧ deserialize ds = .ok db) := by
  refine ⟨⟨rfl, rfl⟩, ?_, ?_, ?_⟩
  · intro bs e h
    simp [load_or_initialize_db, h]
  · intro bs ds e h1 h2
    simp [load_or_initialize_db, h1, h2]
  · intro bs db h
    cases hd : decrypt bs with
    | error e => simp [load_or_initialize_db, hd] at h
    | ok ds => exact ⟨ds, rfl, by simpa [load_or_initialize_db, hd] using h⟩

/-- Claim C9, witness: a failing decrypt propagates its error, and a
missing file yields the fresh snapshot. -/
theorem C9_load_spec_witness :
    (fun _ : List Nat => (.error .typeError : Except PyErr (List Nat))) [0] =
      .error .typeError ∧
    load_or_initialize_db (some [0]) (fun _ => .error .typeError)
      (fun _ => .ok []) = .error .typeError ∧
    load_or_initialize_db none (fun _ => .error .typeError)
      (fun _ => .ok []) = .ok freshDatabase :=
  ⟨rfl,
    (C9_load_spec (fun _ => .error .typeError) (fun _ => .ok [])).2.1
      [0] .typeError rfl,
    (C9_load_spec (fun _ => .error .typeError) (fun _ => .ok [])).1.1⟩

/-- Claim C4: on an existing table, `insert` fails with the schema
`ValueError` exactly when the row's key set is not equal, as a set, to the
table's column set (missing and extra columns both rejected); on success
the record is appended at the end of the table's row list, every other
top-level entry is unchanged, and the new snapshot is persisted. -/
theorem C4_insert_spec (st : DBState) (td : Obj) (tmeta : Value)
    (cols : List Value) (rows : List Value) (t : String) (row : Obj)
    (hm : metaTables st.database = .ok td)
    (ht : pyGet td t = some tmeta)
    (hc : getColumns tmeta = .ok cols)
    (hr : pyGet st.database t = some (.list rows)) :
    ((insert st t row).2 = .ok () ↔
      ((∀ k ∈ row.map Prod.fst, Value.str k ∈ cols) ∧
        ∀ c ∈ cols, ∃ k ∈ row.map Prod.fst, Value.str k = c)) ∧
    (keySetEq (row.map Prod.fst) cols = true →
      pyGet (insert st t row).1.database t =
        some (.list (rows ++ [Value.dict row])) ∧
      (∀ u, u ≠ t → pyGet (insert st t row).1.database u = pyGet st.database u) ∧
      (insert st t row).1.file = some (insert st t row).1.database) ∧
    (keySetEq (row.map Prod.fst) cols = false →
      insert st t row = (st, .error (.valueError "Row does not match table columns."))) := by
  have hred : insert st t row =
      (if keySetEq (row.map Prod.fst) cols then
        (save_db { st with
            database := pySet st.database t (Value.list (rows ++ [Value.dict row])) },
          .ok ())
      else (st, .error (.valueError "Row does not match table columns."))) := by
    simp [insert, hm, ht, hc, hr]
  by_cases hks : keySetEq (row.map Prod.fst) cols = true
  · rw [hred, if_pos hks]
    refine ⟨iff_of_true rfl ((keySetEq_iff _ _).1 hks), fun _ => ⟨?_, ?_, rfl⟩,
      fun h => by simp [hks] at h⟩
    · exact pyGet_pySet_self _ _ _
    · intro u hu
      exact pyGet_pySet_ne _ _ _ _ hu
  · have hks' : keySetEq (row.map Prod.fst) cols = false := by simpa using hks
    rw [hred, if_neg hks]
    refine ⟨iff_of_false (by simp) ?_, fun h => by simp [hks'] at h, fun _ => rfl⟩
    intro hR
    exact hks ((keySetEq_iff _ _).2 hR)

/-- Claim C4, witness: inserting `{"a": 2}` into the reachable state whose
table `"t"` (columns `["a"]`) holds `{"a": 1}` appends it at the end;
inserting `{"a": 2, "b": 3}` (extra column) is rejected with the state
unchanged. -/
theorem C4_insert_spec_witness :
    metaTables stT1.database =
      .ok [("t", Value.dict [("columns", Value.list [Value.str "a"])])] ∧
    pyGet stT1.database "t" = some (.list [Value.dict [("a", Value.int 1)]]) ∧
    keySetEq ["a"] [Value.str "a"] = true ∧
    pyGet (insert stT1 "t" [("a", Value.int 2)]).1.database "t" =
      some (.list [Value.dict [("a", Value.int 1)], Value.dict [("a", Value.int 2)]]) ∧
    keySetEq ["a", "b"] [Value.str "a"] = false ∧
    insert stT1 "t" [("a", Value.int 2), ("b", Value.int 3)] =
      (stT1, .error (.valueError "Row does not match table columns.")) :=
  ⟨rfl, rfl, rfl,
    ((C4_insert_spec stT1 _ _ [Value.str "a"] [Value.dict [("a", Value.int 1)]]
      "t" [("a", Value.int 2)] rfl rfl rfl rfl).2.1 rfl).1,
    rfl,
    (C4_insert_spec stT1 _ _ [Value.str "a"] [Value.dict [("a", Value.int 1)]]
      "t" [("a", Value.int 2), ("b", Value.int 3)] rfl rfl rfl rfl).2.2 rfl⟩

/-- Claim C5: on an existing table, `update` whose `updates` dict has a key
outside the table's schema fails with the column `ValueError` before any
mutation: the returned state is exactly the input state — same in-memory
database, same backing file, so no save happened — and zero rows changed. -/
theorem C5_update_invalid_column (st : DBState) (td : Obj) (tmeta : Value)
    (cols : List Value) (t : String) (filters updates : Obj)
    (hm : metaTables st.database = .ok td)
    (ht : pyGet td t = some tmeta)
    (hc : getColumns tmeta = .ok cols)
    (hbad : ∃ kv ∈ updates, Value.str kv.1 ∉ cols) :
    ∃ k, Value.str k ∉ cols ∧
      update st t filters updates =
        (st, .error (.valueError
          ("Column '" ++ k ++ "' does not exist in table '" ++ t ++ "'."))) := by
  have hne : firstInvalidKey updates cols ≠ none := by
    rw [Ne, firstInvalidKey_eq_none_iff]
    intro hall
    obtain ⟨kv, hkv, hnm⟩ := hbad
    exact hnm (hall kv hkv)
  obtain ⟨k, hk⟩ := Option.ne_none_iff_exists'.1 hne
  exact ⟨k, firstInvalidKey_some_not_mem _ _ _ hk,
    by simp [update, hm, ht, hc, hk]⟩

/-- Claim C5, witness: on the reachable state whose table `"t"` has schema
`["a"]`, an update writing the non-schema column `"bogus"` fails and
returns the state unchanged. -/
theorem C5_update_invalid_column_witness :
    metaTables stT1.database =
      .ok [("t", Value.dict [("columns", Value.list [Value.str "a"])])] ∧
    (("bogus", Value.int 7) ∈ ([("bogus", Value.int 7)] : Obj) ∧
      Value.str "bogus" ∉ [Value.str "a"]) ∧
    (∃ k, Value.str k ∉ [Value.str "a"] ∧
      update stT1 "t" [] [("bogus", Value.int 7)] =
        (stT1, .error (.valueError
          ("Column '" ++ k ++ "' does not exist in table '" ++ "t" ++ "'.")))) :=
  ⟨rfl, ⟨List.mem_cons_self _ _, by decide⟩,
    C5_update_invalid_column stT1 _ _ [Value.str "a"] "t" [] [("bogus", Value.int 7)]
      rfl rfl rfl ⟨("bogus", Value.int 7), List.mem_cons_self _ _, by decide⟩⟩

theorem update_core (st : DBState) (td : Obj) (tmeta : Value) (cols : List Value)
    (rdicts : List Obj) (t : String) (filters updates : Obj)
    (hm : metaTables st.database = .ok td)
    (ht : pyGet td t = some tmeta)
    (hc : getColumns tmeta = .ok cols)
    (hv : firstInvalidKey updates cols = none)
    (hr : pyGet st.database t = some (.list (rdicts.map Value.dict))) :
    update st t filters updates =
      (save_db { st with
          database := pySet st.database t (Value.list (rdicts.map fun ro =>
            if rowMatchesGet ro filters then Value.dict (applyUpdates ro updates)
            else Value.dict ro)) },
        .ok (rdicts.countP fun ro => rowMatchesGet ro filters)) := by
  simp [update, hm, ht, hc, hv, hr, updateRows_eq]

theorem delete_core (st : DBState) (td : Obj) (tmeta : Value)
    (rdicts : List Obj) (t : String) (filters : Obj)
    (hm : metaTables st.database = .ok td)
    (ht : pyGet td t = some tmeta)
    (hr : pyGet st.database t = some (.list (rdicts.map Value.dict))) :
    delete st t filters =
      (save_db { st with
          database := pySet st.database t (Value.list
            ((rdicts.filter fun ro => !rowMatchesGet ro filters).map Value.dict)) },
        .ok (rdicts.countP fun ro => rowMatchesGet ro filters)) := by
  have h1 : delete st t filters =
      (save_db { st with
          database := pySet st.database t (Value.list
            ((rdicts.filter fun ro => !rowMatchesGet ro filters).map Value.dict)) },
        .ok ((rdicts.map Value.dict).length -
          ((rdicts.filter fun ro => !rowMatchesGet ro filters).map Value.dict).length)) := by
    simp [delete, hm, ht, hr, deleteRows_eq]
  rw [h1, List.length_map, List.length_map, length_sub_length_filter_not]

/-- Claim C6, counterexample: deleting with the filter `{"b": null}` from
the table whose single record is `{"a": 1}` removes that record and returns
1, although the record does not match under the claim's "a record missing a
filter key is treated as not matching" reading, which demands 0 removed and
the rows left unchanged. -/
theorem C6_counterexample_null_filter :
    strictAbsentNoMatch [("a", Value.int 1)] [("b", Value.null)] = false ∧
    pyGet stT1.database "t" = some (Value.list [Value.dict [("a", Value.int 1)]]) ∧
    (delete stT1 "t" [("b", Value.null)]).2 = .ok 1 ∧
    pyGet (delete stT1 "t" [("b", Value.null)]).1.database "t" = some (Value.list []) :=
  ⟨rfl, rfl, rfl, rfl⟩

/-- Claim C6 (amended): on an existing table, `delete` removes exactly the
records matching filters — where a record missing a filter key is treated
as holding null there, so it matches a null filter value and no other —
preserving the relative order of the remaining records and returning the
removed count; empty filters match every record, emptying the table and
returning the prior count; a filter matching no record returns 0 and leaves
the rows unchanged; other tables are untouched and the result is persisted. -/
theorem C6_delete_spec (st : DBState) (td : Obj) (tmeta : Value)
    (rdicts : List Obj) (t : String) (filters : Obj)
    (hm : metaTables st.database = .ok td)
    (ht : pyGet td t = some tmeta)
    (hr : pyGet st.database t = some (.list (rdicts.map Value.dict))) :
    (delete st t filters).2 = .ok (rdicts.countP fun ro => rowMatchesGet ro filters) ∧
    pyGet (delete st t filters).1.database t =
      some (.list ((rdicts.filter fun ro => !rowMatchesGet ro filters).map Value.dict)) ∧
    (filters = [] →
      (delete st t filters).2 = .ok rdicts.length ∧
      pyGet (delete st t filters).1.database t = some (.list [])) ∧
    ((∀ ro ∈ rdicts, rowMatchesGet ro filters = false) →
      (delete st t filters).2 = .ok 0 ∧
      pyGet (delete st t filters).1.database t =
        some (.list (rdicts.map Value.dict))) ∧
    (∀ u, u ≠ t → pyGet (delete st t filters).1.database u = pyGet st.database u) ∧
    (delete st t filters).1.file = some (delete st t filters).1.database := by
  have hred := delete_core st td tmeta rdicts t filters hm ht hr
  refine ⟨by rw [hred], by rw [hred]; exact pyGet_pySet_self _ _ _, ?_, ?_, ?_, ?_⟩
  · intro h
    subst h
    rw [hred]
    exact ⟨by simp [rowMatchesGet],
      (pyGet_pySet_self _ _ _).trans (by simp [rowMatchesGet])⟩
  · intro hno
    have hc0 : (rdicts.countP fun ro => rowMatchesGet ro filters) = 0 :=
      List.countP_eq_zero.2 fun a ha => by simp [hno a ha]
    have hfe : (rdicts.filter fun ro => !rowMatchesGet ro filters) = rdicts :=
      List.filter_eq_self.2 fun a ha => by simp [hno a ha]
    rw [hred]
    exact ⟨congrArg Except.ok hc0,
      (pyGet_pySet_self _ _ _).trans (by rw [hfe])⟩
  · intro u hu
    rw [hred]
    exact pyGet_pySet_ne _ _ _ _ hu
  · rw [hred]
    rfl

/-- Claim C6, witness: on the reachable state whose table `"t"` holds the
single record `{"a": 1}`, deleting with the matching filter `{"a": 1}`
returns 1 and empties the table, and deleting with the non-matching filter
`{"a": 2}` returns 0 and leaves the record in place. -/
theorem C6_delete_spec_witness :
    metaTables stT1.database =
      .ok [("t", Value.dict [("columns", Value.list [Value.str "a"])])] ∧
    pyGet stT1.database "t" = some (.list [Value.dict [("a", Value.int 1)]]) ∧
    (delete stT1 "t" [("a", Value.int 1)]).2 = .ok 1 ∧
    pyGet (delete stT1 "t" [("a", Value.int 1)]).1.database "t" =
      some (Value.list []) ∧
    (delete stT1 "t" [("a", Value.int 2)]).2 = .ok 0 ∧
    pyGet (delete stT1 "t" [("a", Value.int 2)]).1.database "t" =
      some (.list [Value.dict [("a", Value.int 1)]]) :=
  ⟨rfl, rfl,
    (C6_delete_spec stT1 _ _ [[("a", Value.int 1)]] "t" [("a", Value.int 1)]
      rfl rfl rfl).1,
    (C6_delete_spec stT1 _ _ [[("a", Value.int 1)]] "t" [("a", Value.int 1)]
      rfl rfl rfl).2.1,
    (C6_delete_spec stT1 _ _ [[("a", Value.int 1)]] "t" [("a", Value.int 2)]
      rfl rfl rfl).1,
    (C6_delete_spec stT1 _ _ [[("a", Value.int 1)]] "t" [("a", Value.int 2)]
      rfl rfl rfl).2.1⟩

/-- Claim C7: on an existing table with valid update columns, `update` sets
every update key to its new value in exactly the matching records,
preserving each record's other keys, leaves non-matching records completely
unchanged, returns the number of matching records, and matches every record
when filters is empty; the result is persisted. -/
theorem C7_update_spec (st : DBState) (td : Obj) (tmeta : Value)
    (cols : List Value) (rdicts : List Obj) (t : String) (filters updates : Obj)
    (hm : metaTables st.database = .ok td)
    (ht : pyGet td t = some tmeta)
    (hc : getColumns tmeta = .ok cols)
    (hv : firstInvalidKey updates cols = none)
    (hnd : (updates.map Prod.fst).Nodup)
    (hr : pyGet st.database t = some (.list (rdicts.map Value.dict))) :
    (update st t filters updates).2 =
      .ok (rdicts.countP fun ro => rowMatchesGet ro filters) ∧
    pyGet (update st t filters updates).1.database t =
      some (.list (rdicts.map fun ro =>
        if rowMatchesGet ro filters then Value.dict (applyUpdates ro updates)
        else Value.dict ro)) ∧
    (∀ ro : Obj, ∀ k v, (k, v) ∈ updates →
      pyGet (applyUpdates ro updates) k = some v) ∧
    (∀ ro : Obj, ∀ k, k ∉ updates.map Prod.fst →
      pyGet (applyUpdates ro updates) k = pyGet ro k) ∧
    (filters = [] →
      (update st t filters updates).2 = .ok rdicts.length) ∧
    (update st t filters updates).1.file =
      some (update st t filters updates).1.database := by
  have hred := update_core st td tmeta cols rdicts t filters updates hm ht hc hv hr
  refine ⟨by rw [hred], by rw [hred]; exact pyGet_pySet_self _ _ _,
    fun ro k v hkv => pyGet_applyUpdates_mem ro updates k v hnd hkv,
    fun ro k hk => pyGet_applyUpdates_not_mem ro updates k hk, ?_,
    by rw [hred]; rfl⟩
  intro h
  subst h
  rw [hred]
  simp [rowMatchesGet]

/-- Claim C7, witness: on the reachable state whose table `"t"` (schema
`["a"]`) holds `{"a": 1}`, updating with empty filters and `{"a": 2}`
returns 1 and rewrites the record to `{"a": 2}`. -/
theorem C7_update_spec_witness :
    firstInvalidKey [("a", Value.int 2)] [Value.str "a"] = none ∧
    (update stT1 "t" [] [("a", Value.int 2)]).2 = .ok 1 ∧
    pyGet (update stT1 "t" [] [("a", Value.int 2)]).1.database "t" =
      some (.list [Value.dict [("a", Value.int 2)]]) :=
  ⟨rfl,
    (C7_update_spec stT1 _ _ [Value.str "a"] [[("a", Value.int 1)]] "t" []
      [("a", Value.int 2)] rfl rfl rfl rfl (by decide) rfl).1,
    (C7_update_spec stT1 _ _ [Value.str "a"] [[("a", Value.int 1)]] "t" []
      [("a", Value.int 2)] rfl rfl rfl rfl (by decide) rfl).2.1⟩

/-- Claim C8: on an existing table, `read` with absent or empty filters
returns all records in insertion order; with a non-empty filters dict whose
keys occur in every stored record it returns exactly the records in which
every filter key maps to a value equal to the filter's value (a logical AND
across the filter keys), in insertion order. -/
theorem C8_read_spec (st : DBState) (td : Obj) (tmeta : Value)
    (rdicts : List Obj) (t : String) (f : Obj)
    (hm : metaTables st.database = .ok td)
    (ht : pyGet td t = some tmeta)
    (hr : pyGet st.database t = some (.list (rdicts.map Value.dict)))
    (hf : f ≠ [])
    (hp : ∀ ro ∈ rdicts, ∀ kv ∈ f, (pyGet ro kv.1).isSome) :
    read st t none = .ok (.list (rdicts.map Value.dict)) ∧
    read st t (some []) = .ok (.list (rdicts.map Value.dict)) ∧
    read st t (some f) = .ok (.list ((rdicts.filter fun ro =>
      decide (∀ kv ∈ f, pyGet ro kv.1 = some kv.2)).map Value.dict)) := by
  refine ⟨by simp [read, hm, ht, hr], by simp [read, hm, ht, hr], ?_⟩
  cases f with
  | nil => exact absurd rfl hf
  | cons kv fs =>
    have hconv : (rdicts.filter fun ro =>
          (kv :: fs).all fun p => pyGet ro p.1 == some p.2)
        = rdicts.filter fun ro => decide (∀ p ∈ kv :: fs, pyGet ro p.1 = some p.2) := by
      apply List.filter_congr
      intro ro _
      apply bool_eq_of_iff
      simp [List.all_eq_true]
    have h1 : read st t (some (kv :: fs)) = .ok (.list ((rdicts.filter fun ro =>
        (kv :: fs).all fun p => pyGet ro p.1 == some p.2).map Value.dict)) := by
      simp [read, hm, ht, hr, filterStrict_eq rdicts (kv :: fs) hp]
    rw [h1, hconv]

/-- Claim C8, witness: on the reachable state whose table `"t"` holds the
single record `{"a": 1}`, an unfiltered read returns it and a read filtered
by `{"a": 1}` returns exactly it. -/
theorem C8_read_spec_witness :
    ([("a", Value.int 1)] : Obj) ≠ [] ∧
    (∀ ro ∈ [[("a", Value.int 1)]], ∀ kv ∈ ([("a", Value.int 1)] : Obj),
      (pyGet ro kv.1).isSome) ∧
    read stT1 "t" none = .ok (.list [Value.dict [("a", Value.int 1)]]) ∧
    read stT1 "t" (some [("a", Value.int 1)]) =
      .ok (.list [Value.dict [("a", Value.int 1)]]) :=
  ⟨by decide, by decide,
    (C8_read_spec stT1 _ _ [[("a", Value.int 1)]] "t" [("a", Value.int 1)]
      rfl rfl rfl (by decide) (by decide)).1,
    (C8_read_spec stT1 _ _ [[("a", Value.int 1)]] "t" [("a", Value.int 1)]
      rfl rfl rfl (by decide) (by decide)).2.2⟩

/-- Claim C10: in the matching used by `update` and `delete`, a filter
entry mapping `k` to null matches a record exactly when `k` is absent from
the record or holds null (the `.get` of a missing key yields `None`, which
compares equal to the null filter value); consequently `delete(t, {k: null})`
removes every record lacking column `k`, and the `update` row loop counts
those same records as matched. -/
theorem C10_null_filter_matches_missing (st : DBState) (td : Obj) (tmeta : Value)
    (rdicts : List Obj) (t k : String)
    (hm : metaTables st.database = .ok td)
    (ht : pyGet td t = some tmeta)
    (hr : pyGet st.database t = some (.list (rdicts.map Value.dict))) :
    (∀ ro : Obj, rowMatchesGet ro [(k, Value.null)] = true ↔
      (pyGet ro k = none ∨ pyGet ro k = some Value.null)) ∧
    (updateRows (rdicts.map Value.dict) [(k, Value.null)] []).2.1 =
      rdicts.countP (fun ro => rowMatchesGet ro [(k, Value.null)]) ∧
    (delete st t [(k, Value.null)]).2 =
      .ok (rdicts.countP fun ro => rowMatchesGet ro [(k, Value.null)]) ∧
    pyGet (delete st t [(k, Value.null)]).1.database t =
      some (.list ((rdicts.filter fun ro =>
        !rowMatchesGet ro [(k, Value.null)]).map Value.dict)) ∧
    (∀ ro ∈ rdicts, pyGet ro k = none →
      Value.dict ro ∉ ((rdicts.filter fun ro =>
        !rowMatchesGet ro [(k, Value.null)]).map Value.dict)) := by
  have hred := delete_core st td tmeta rdicts t [(k, Value.null)] hm ht hr
  have hiff : ∀ ro : Obj, rowMatchesGet ro [(k, Value.null)] = true ↔
      (pyGet ro k = none ∨ pyGet ro k = some Value.null) := by
    intro ro
    cases hpy : pyGet ro k <;> simp [rowMatchesGet, hpy]
  refine ⟨hiff, by simp [updateRows_eq], by rw [hred],
    by rw [hred]; exact pyGet_pySet_self _ _ _, ?_⟩
  intro ro hro hnone hmem
  obtain ⟨ro2, hro2, he⟩ := List.mem_map.1 hmem
  injection he with he2
  rw [he2] at hro2
  have hb := (List.mem_filter.1 hro2).2
  rw [(hiff ro).2 (Or.inl hnone)] at hb
  simp at hb

/-- Claim C10, witness: the record `{"a": 1}` lacks key `"b"` and matches
the filter `{"b": null}`; deleting with that filter on the reachable state
whose table `"t"` holds exactly that record removes it and returns 1. -/
theorem C10_null_filter_witness :
    pyGet [("a", Value.int 1)] "b" = none ∧
    rowMatchesGet [("a", Value.int 1)] [("b", Value.null)] = true ∧
    (delete stT1 "t" [("b", Value.null)]).2 = .ok 1 ∧
    pyGet (delete stT1 "t" [("b", Value.null)]).1.database "t" =
      some (Value.list []) :=
  ⟨rfl,
    ((C10_null_filter_matches_missing stT1 _ _ [[("a", Value.int 1)]] "t" "b"
      rfl rfl rfl).1 [("a", Value.int 1)]).2 (Or.inl rfl),
    (C10_null_filter_matches_missing stT1 _ _ [[("a", Value.int 1)]] "t" "b"
      rfl rfl rfl).2.2.1,
    (C10_null_filter_matches_missing stT1 _ _ [[("a", Value.int 1)]] "t" "b"
      rfl rfl rfl).2.2.2.1⟩

end EncryptedDB
